import Mathlib

/-!
Verification development for the Meal-Prep-AI backend (`src/app.py`).

The repository is a single Flask application.  We shallowly embed the four
JSON endpoints that the claims concern — `/suggest` (`suggest`),
`/ai/instructions` (`ai_instructions`) and `/email` (`email_send`) — as pure
Lean functions over a JSON value model.  External collaborators (the OpenAI
client, `json.loads`, `random.randint`, the SMTP transport) are passed in as
oracle parameters, mirroring the fact that the Python code treats them as
opaque calls.  An uncaught Python exception (which Flask would surface as an
HTTP 500) is modelled as `Except.error`; a returned JSON response is
`Except.ok` of a response record carrying the HTTP status.

Python-specific behaviours that the handlers rely on are modelled explicitly:
truthiness (`x or default`), `str.strip`, `str.lower`, `str.replace`
(left-to-right, non-overlapping), `int(...)` conversion, and `dict.get` /
`dict.setdefault` / key-assignment on insertion-ordered dictionaries
(association lists; the handlers only ever append fresh keys).
-/

/-- JSON values, as produced by `json.loads` / consumed by `jsonify`.
Numbers are modelled as rationals (Python ints and floats merged). -/
inductive Json where
  | null
  | bool (b : Bool)
  | num (q : ℚ)
  | str (s : String)
  | arr (elems : List Json)
  | obj (fields : List (String × Json))

/-- First-match lookup in an insertion-ordered dict (Python `d[k]` / `d.get(k)`). -/
def lookup : List (String × Json) → String → Option Json
  | [], _ => none
  | p :: fs, k => if p.1 = k then some p.2 else lookup fs k

/-- Python `k in d`. -/
def hasKey (fs : List (String × Json)) (k : String) : Bool :=
  (lookup fs k).isSome

/-- Python `d.get(k)`: absent keys yield `None`. -/
def getJ (fs : List (String × Json)) (k : String) : Json :=
  (lookup fs k).getD Json.null

/-- Python dict assignment `d[k] = v`: overwrite in place, or append a fresh key. -/
def dictSet (fs : List (String × Json)) (k : String) (v : Json) : List (String × Json) :=
  if hasKey fs k then fs.map (fun p => if p.1 = k then (k, v) else p) else fs ++ [(k, v)]

/-- Python truthiness of a JSON value (`if x:` / `x or y`). -/
def truthy : Json → Bool
  | .null => false
  | .bool b => b
  | .num q => decide (q ≠ 0)
  | .str s => s ≠ ""
  | .arr xs => !xs.isEmpty
  | .obj fs => !fs.isEmpty

/-- The whitespace characters removed by Python `str.strip()`. -/
def isPyWs (c : Char) : Bool :=
  c = ' ' || c = '\t' || c = '\n' || c = '\r' || c = '\x0b' || c = '\x0c'

/-- Python `str.strip()`. -/
def pyStrip (s : String) : String :=
  String.mk (((s.data.dropWhile isPyWs).reverse.dropWhile isPyWs).reverse)

/-- Fuelled worker for `strReplace`; the fuel is the length of the text, which
suffices because every step consumes at least one character (patterns used in
the source are non-empty). -/
def replaceAux (pat rep : List Char) : Nat → List Char → List Char
  | 0, s => s
  | _ + 1, [] => []
  | fuel + 1, c :: cs =>
    if pat.isPrefixOf (c :: cs) then
      rep ++ replaceAux pat rep fuel (List.drop (pat.length - 1) cs)
    else
      c :: replaceAux pat rep fuel cs

/-- Python `str.replace(pat, rep)`: replace every occurrence, scanning left to
right without overlap. -/
def strReplace (s pat rep : String) : String :=
  String.mk (replaceAux pat.data rep.data s.data.length s.data)

/-- The natural number denoted by a list of decimal digits. -/
def digitsToNat (cs : List Char) : Nat :=
  cs.foldl (fun n c => n * 10 + (c.toNat - 48)) 0

/-- Python `int(str)`: optional sign followed by digits (whitespace stripped),
anything else raises `ValueError`. -/
def pyIntOfStr (s : String) : Except String Int :=
  let t := (pyStrip s).data
  let neg := t.head? = some '-'
  let core := if (t.head? = some '+' : Bool) || neg then t.drop 1 else t
  if core ≠ [] && core.all Char.isDigit then
    .ok (if neg then -(digitsToNat core : Int) else (digitsToNat core : Int))
  else
    .error "ValueError: invalid literal for int()"

/-- Python `int(x)` on a JSON value: numbers truncate toward zero, booleans
coerce, strings parse, everything else raises. -/
def pyIntJ : Json → Except String Int
  | .num q => .ok (q.num / (q.den : Int))
  | .str s => pyIntOfStr s
  | .bool b => .ok (if b then 1 else 0)
  | _ => .error "TypeError: int() argument"

/-- Rendering of a JSON value inside a Python f-string (`str(x)`).  Container
and float representations are approximated (no claim depends on them); on the
values the handlers actually format — strings, `None`, booleans and integral
numbers — this matches CPython. -/
def pyFStr : Json → String
  | .null => "None"
  | .bool b => if b then "True" else "False"
  | .num q => if q.den = 1 then toString q.num else toString q.num ++ "/" ++ toString q.den
  | .str s => s
  | .arr _ => "<list>"
  | .obj _ => "<dict>"

/-! ## The `/suggest` handler (`src/app.py`, `suggest`, lines 24–111) -/

/-- The JSON body of a `/suggest` response together with its HTTP status.
`jsonify` without an explicit status returns 200. -/
structure SuggestResponse where
  recipes : Json
  error : Option String := none
  status : Nat

/-- `(j or "").strip()` — crashes (`AttributeError`) on a truthy non-string. -/
def strField (j : Json) : Except String String :=
  if truthy j then
    match j with
    | .str s => .ok (pyStrip s)
    | _ => .error "AttributeError: strip"
  else
    .ok ""

/-- Python `str.lower()` (ASCII; the handler compares meal-type keywords). -/
def pyLower (s : String) : String :=
  String.mk (s.data.map Char.toLower)

/-- `(j or "").strip().lower()`. -/
def strFieldLower (j : Json) : Except String String :=
  (strField j).map pyLower

/-- `int(data.get("limit") or 5)` (`src/app.py` line 40). -/
def limitOf (data : List (String × Json)) : Except String Int :=
  pyIntJ (if truthy (getJ data "limit") then getJ data "limit" else .num 5)

/-- `max(3, min(limit, 6))` (`src/app.py` line 41). -/
def clampLimit (l : Int) : Int :=
  max 3 (min l 6)

/-- Input processing of `suggest` before the generation call
(`src/app.py` lines 36–41): meal type, comments and the clamped limit.
The `goals` field is read but used only inside the prompt string, which is
part of the opaque generation call; building it raises no exception. -/
def suggestPreamble (data : List (String × Json)) :
    Except String (String × String × Int) :=
  match strFieldLower (getJ data "meal_type") with
  | .error e => .error e
  | .ok mt =>
    match strField (getJ data "comments") with
    | .error e => .error e
    | .ok cm =>
      match limitOf data with
      | .error e => .error e
      | .ok l => .ok (mt, cm, clampLimit l)

/-- The `try` block of `suggest` (`src/app.py` lines 86–96): the generation
call (oracle `call`, whose `Option String` success value is
`resp.output_text`, possibly `None`), then `json.loads` (oracle `loads`) on
the stripped output, then `data_json.get("recipes", [])`.  Every raised
exception — transport failure, `AttributeError` on a `None` output or a
non-dict JSON document, `json` parse failure — lands in `Except.error` and is
caught by the handler. -/
def tryBlock (call : Except String (Option String))
    (loads : String → Except String Json) : Except String Json :=
  match call with
  | .error e => .error e
  | .ok none => .error "AttributeError: output_text is None"
  | .ok (some raw) =>
    match loads (pyStrip raw) with
    | .error e => .error e
    | .ok (.obj fs) => .ok ((lookup fs "recipes").getD (.arr []))
    | .ok _ => .error "AttributeError: get"

/-- `r.setdefault("goal", [])` (`src/app.py` line 103): append the default
when the key is absent, leave the dict unchanged otherwise. -/
def goalDefaulted (fs : List (String × Json)) : List (String × Json) :=
  if hasKey fs "goal" then fs else fs ++ [("goal", Json.arr [])]

/-- Whether the `"id" not in r` test on line 105 succeeds (it runs after the
`setdefault` of line 103). -/
def idWasAbsent (fs : List (String × Json)) : Bool :=
  !hasKey (goalDefaulted fs) "id"

/-- `if "id" not in r: r["id"] = random.randint(100000, 999999)`
(`src/app.py` lines 105–106), with the draw passed in as `rngVal`. -/
def idDefaulted (rngVal : Nat) (fs : List (String × Json)) : List (String × Json) :=
  if hasKey fs "id" then fs else fs ++ [("id", Json.num rngVal)]

/-- `if "cost_per_serving_usd" in r and "cost_usd" not in r:
r["cost_usd"] = r.get("cost_per_serving_usd")` (`src/app.py` lines 108–109). -/
def costNormalized (fs : List (String × Json)) : List (String × Json) :=
  if hasKey fs "cost_per_serving_usd" && !hasKey fs "cost_usd" then
    fs ++ [("cost_usd", (lookup fs "cost_per_serving_usd").getD .null)]
  else fs

/-- The body of the per-recipe normalisation loop (`src/app.py` lines
102–109) on one dict, given the `random.randint(100000, 999999)` draw
`rngVal` it would consume.  All three writes append fresh keys. -/
def fixupObj (rngVal : Nat) (fs : List (String × Json)) : List (String × Json) :=
  costNormalized (idDefaulted rngVal (goalDefaulted fs))

/-- The per-recipe normalisation loop of `suggest` (`src/app.py` lines
102–109), threading the `random.randint` stream `rng` by the number of draws
consumed so far (`k`); a recipe that already has an id consumes no draw.  A
non-dict element raises `AttributeError` outside any `try` (an HTTP 500). -/
def fixupRecipes (rng : Nat → Nat) : Nat → List Json → Except String (List Json)
  | _, [] => .ok []
  | k, .obj fs :: rest =>
    (fixupRecipes rng (if idWasAbsent fs then k + 1 else k) rest).map
      (Json.obj (fixupObj (rng k) fs) :: ·)
  | _, _ :: _ => .error "AttributeError: setdefault"

/-- The `/suggest` handler (`src/app.py` lines 24–111).  The prompt assembly
(lines 52–84) is pure string formatting consumed only by the generation call,
which is the oracle `call`; it is therefore not materialised here.  After the
`try` block the code iterates over the `recipes` value: a list is normalised
element-wise; an empty string or empty dict iterates zero times and is
returned as-is; any other value raises an uncaught exception in the loop. -/
def suggest (data : List (String × Json)) (call : Except String (Option String))
    (loads : String → Except String Json) (rng : Nat → Nat) :
    Except String SuggestResponse :=
  match suggestPreamble data with
  | .error e => .error e
  | .ok _ =>
    match tryBlock call loads with
    | .error e => .ok { recipes := .arr [], error := some e, status := 200 }
    | .ok (.arr xs) =>
      match fixupRecipes rng 0 xs with
      | .ok ys => .ok { recipes := .arr ys, status := 200 }
      | .error e => .error e
    | .ok (.str "") => .ok { recipes := .str "", status := 200 }
    | .ok (.obj []) => .ok { recipes := .obj [], status := 200 }
    | .ok _ => .error "TypeError: recipe loop"

/-! ## The `/ai/instructions` handler (`src/app.py`, `ai_instructions`, lines 114–164) -/

/-- The JSON body of an `/ai/instructions` response with its HTTP status. -/
structure InstrResponse where
  message : String
  error : Option String := none
  status : Nat

/-- `data.get("recipe") or {}` (also `data.get("name") or "there"` shape):
the field when truthy, else the default. -/
def recipeField (data : List (String × Json)) : Json :=
  if truthy (getJ data "recipe") then getJ data "recipe" else .obj []

/-- The post-processing of the model output in `ai_instructions`
(`src/app.py` lines 156–158): `message = (resp.output_text or "").strip()`,
then `message.replace(". ", ".\n").replace("  ", " ").strip()`. -/
def normalizeInstructions (raw : String) : String :=
  pyStrip (strReplace (strReplace (pyStrip raw) ". " ".\n") "  " " ")

/-- The `/ai/instructions` handler (`src/app.py` lines 114–164).  The recipe
context fields (title, meal type, ingredients, macro data, time, cost) are
read with exception-free `dict.get` calls and flow only into the prompt for
the opaque generation call `call`; reading them requires the `recipe` value to
be a dict (a truthy non-dict raises before the call).  On call failure the
handler returns the placeholder message, the error detail and status 500. -/
def ai_instructions (data : List (String × Json))
    (call : Except String (Option String)) : Except String InstrResponse :=
  match recipeField data with
  | .obj _ =>
    match call with
    | .error e =>
      .ok { message := "(AI error) I couldn’t load the instructions right now.",
            error := some e, status := 500 }
    | .ok out => .ok { message := normalizeInstructions (out.getD ""), status := 200 }
  | _ => .error "AttributeError: recipe.get"

/-! ## The `/email` handler (`src/app.py`, `email_send`, lines 194–302) -/

/-- The JSON body of an `/email` response with its HTTP status. -/
structure EmailResponse where
  ok : Bool
  mode : Option String := none
  error : Option String := none
  preview : Option String := none
  status : Nat

/-- Outcome of the `/email` handler: the response, plus the SMTP transmission
(sender and recipient) when the handler reached the transport — `none` on the
early 400 return and in dry-run mode. -/
structure EmailResult where
  resp : EmailResponse
  sent : Option (String × String)

/-- Truthiness of an environment variable (`os.getenv` result): absent or
empty is falsy. -/
def credTruthy : Option String → Bool
  | none => false
  | some s => s ≠ ""

/-- `data.get("name") or "there"`. -/
def nameField (data : List (String × Json)) : Json :=
  if truthy (getJ data "name") then getJ data "name" else .str "there"

/-- Python `f"{q:.2f}"` on a rational: round half to even at two decimals. -/
def format2f (q : ℚ) : String :=
  let scaled : ℚ := q * 100
  let fl : ℤ := ⌊scaled⌋
  let frac : ℚ := scaled - fl
  let n : ℤ :=
    if frac > 1/2 then fl + 1
    else if frac < 1/2 then fl
    else if fl % 2 = 0 then fl else fl + 1
  let sign := if n < 0 then "-" else ""
  let a := n.natAbs
  let cents := a % 100
  sign ++ toString (a / 100) ++ "." ++
    (if cents < 10 then "0" else "") ++ toString cents

/-- `isinstance(x, (int, float))` on a JSON value — Python booleans are ints. -/
def isNumLike : Json → Bool
  | .num _ => true
  | .bool _ => true
  | _ => false

/-- The numeric value of a number-like JSON value. -/
def numVal : Json → ℚ
  | .num q => q
  | .bool b => if b then 1 else 0
  | _ => 0

/-- One line of the ingredient listing (`src/app.py` lines 240–244):
`f"- {qty or ''} {unit} {nm}".strip()` with `qty = i.get("qty")`,
`unit = i.get("unit", "")`, `nm = i.get("name") or ""`.  A non-dict element
raises `AttributeError`. -/
def ingredientLine : Json → Except String String
  | .obj fs =>
    let qty := (lookup fs "qty").getD .null
    let unit := (lookup fs "unit").getD (.str "")
    let nmJ := (lookup fs "name").getD .null
    let nm := if truthy nmJ then nmJ else .str ""
    .ok (pyStrip ("- " ++ (if truthy qty then pyFStr qty else "") ++ " " ++
      pyFStr unit ++ " " ++ pyFStr nm))
  | _ => .error "AttributeError: ingredient get"

/-- The `macros_line` computation (`src/app.py` lines 221–226): collect the
truthy macro entries, join with bullets, em-dash when empty. -/
def macrosLine (mfs : List (String × Json)) : String :=
  let parts :=
    (if truthy (getJ mfs "kcal") then [pyFStr (getJ mfs "kcal") ++ " kcal"] else []) ++
    (if truthy (getJ mfs "protein_g") then [pyFStr (getJ mfs "protein_g") ++ "g protein"] else []) ++
    (if truthy (getJ mfs "carbs_g") then [pyFStr (getJ mfs "carbs_g") ++ "g carbs"] else []) ++
    (if truthy (getJ mfs "fat_g") then [pyFStr (getJ mfs "fat_g") ++ "g fat"] else [])
  if parts.isEmpty then "—" else String.intercalate " • " parts

/-- The plain-text email body (`src/app.py` lines 215–249), built from the
`name` value, the `recipe` value and the stripped instructions text.  Raises
(`Except.error`) exactly where Python would: `recipe.get` on a truthy
non-dict, `macros.get` on a non-dict `macros` value, and iteration over a
truthy non-list `ingredients` value or non-dict ingredient entry.  The HTML
body of lines 252–276, which the handler builds next, is `buildHtmlBody`
below. -/
def buildTextBody (name recipe : Json) (instr : String) : Except String String :=
  match recipe with
  | .obj fields =>
    let title := (lookup fields "title").getD (.str "Selected Recipe")
    let timeMin := (lookup fields "time_min").getD .null
    let cost := (lookup fields "cost_usd").getD
      ((lookup fields "cost_per_serving_usd").getD .null)
    match (lookup fields "macros").getD (.obj []) with
    | .obj mfs =>
      let ingJ := (lookup fields "ingredients").getD (.arr [])
      let ingLines : Except String (List String) :=
        if truthy ingJ then
          match ingJ with
          | .arr xs => xs.mapM ingredientLine
          | _ => .error "TypeError: ingredients not iterable"
        else .ok ["- (not provided)"]
      match ingLines with
      | .error e => .error e
      | .ok ils =>
        .ok (String.intercalate "\n"
          (["Hi " ++ pyFStr name ++ ", I’m Emil-ia 👋", "",
            "Here’s your recipe: " ++ pyFStr title,
            if truthy timeMin then "Time: ~" ++ pyFStr timeMin ++ " min" else "",
            if isNumLike cost then "Estimated cost: $" ++ format2f (numVal cost) else "",
            "Macros: " ++ macrosLine mfs, "", "Ingredients:"] ++ ils ++
           ["", "Instructions:", instr, "", "Happy cooking!", "— MealPrepAI"]))
    | _ => .error "AttributeError: macros get"
  | _ => .error "AttributeError: recipe get"

/-- `text_body[:400] + ("..." if len(text_body) > 400 else "")`
(`src/app.py` line 284). -/
def preview400 (s : String) : String :=
  if s.length > 400 then String.mk (s.data.take 400) ++ "..." else s

/-- The escape chain of `esc` (`src/app.py` lines 252–253) on a string:
`"&" -> "&amp;"`, then `"<" -> "&lt;"`, then `">" -> "&gt;"`. -/
def escStr (s : String) : String :=
  strReplace (strReplace (strReplace s "&" "&amp;") "<" "&lt;") ">" "&gt;"

/-- `esc(x)` (`src/app.py` lines 252–253): `(x or "").replace(...)` — a falsy
value reads as the empty string, a truthy string is escaped, and a truthy
non-string raises `AttributeError` on `.replace`. -/
def esc (j : Json) : Except String String :=
  if truthy j then
    match j with
    | .str s => .ok (escStr s)
    | _ => .error "AttributeError: replace"
  else
    .ok ""

/-- Python `str.splitlines()` on the line terminators the handler can
produce (`"\n"`, `"\r\n"`, `"\r"`; exotic Unicode terminators are out of
scope of the embedding). -/
def pySplitlinesAux : List Char → List Char → List String
  | acc, [] => if acc.isEmpty then [] else [String.mk acc.reverse]
  | acc, '\r' :: '\n' :: rest => String.mk acc.reverse :: pySplitlinesAux [] rest
  | acc, '\r' :: rest => String.mk acc.reverse :: pySplitlinesAux [] rest
  | acc, '\n' :: rest => String.mk acc.reverse :: pySplitlinesAux [] rest
  | acc, c :: rest => pySplitlinesAux (c :: acc) rest

/-- Python `str.splitlines()`. -/
def pySplitlines (s : String) : List String :=
  pySplitlinesAux [] s.data

/-- One `<li>` of `ing_html` (`src/app.py` line 255):
`f"<li>{esc(str(i.get('qty') or ''))} {esc(i.get('unit') or '')}
{esc(i.get('name') or '')}</li>"`.  The qty is `str()`-wrapped so its escape
never raises; `unit` and `name` go through `esc` directly, which raises on a
truthy non-string.  A non-dict element raises on `.get`. -/
def htmlIngredientLine : Json → Except String String
  | .obj fs =>
    let qty := (lookup fs "qty").getD .null
    let q := escStr (pyFStr (if truthy qty then qty else .str ""))
    match esc ((lookup fs "unit").getD .null) with
    | .error e => .error e
    | .ok u =>
      match esc ((lookup fs "name").getD .null) with
      | .error e => .error e
      | .ok n => .ok ("<li>" ++ q ++ " " ++ u ++ " " ++ n ++ "</li>")
  | _ => .error "AttributeError: ingredient get"

/-- `ing_html` (`src/app.py` lines 254–257): `"".join(...)` over the
ingredients — with no truthiness guard, unlike the text section — then
`or "<li>(not provided)</li>"` when the join is empty.  A non-iterable
`ingredients` value (`None`, a number, a boolean) raises here even when it
is falsy; an empty string or empty dict iterates zero times. -/
def ingHtml : Json → Except String String
  | .arr xs =>
    match xs.mapM htmlIngredientLine with
    | .error e => .error e
    | .ok ls =>
      let joined := String.intercalate "" ls
      .ok (if joined = "" then "<li>(not provided)</li>" else joined)
  | .str "" => .ok "<li>(not provided)</li>"
  | .obj [] => .ok "<li>(not provided)</li>"
  | _ => .error "TypeError: ingredients not iterable"

/-- The HTML email body (`src/app.py` lines 252–276), built after the plain
text body and before the credential check.  The locals `title`, `time_min`,
`cost_usd`, `macros` and `ingredients` are the ones assigned at lines
215–219 (pure reads, recomputed here verbatim).  Raise order mirrors the
source: `ing_html` first (line 254), then — `instr_html` at line 258 never
raises on a string — the `html_body` f-string evaluates `esc(name)` then
`esc(title)` (lines 263, 265); `esc(macros_line)` is an escape of a string
and never raises. -/
def buildHtmlBody (name recipe : Json) (instr : String) : Except String String :=
  match recipe with
  | .obj fields =>
    let title := (lookup fields "title").getD (.str "Selected Recipe")
    let timeMin := (lookup fields "time_min").getD .null
    let cost := (lookup fields "cost_usd").getD
      ((lookup fields "cost_per_serving_usd").getD .null)
    match (lookup fields "macros").getD (.obj []) with
    | .obj mfs =>
      let ingJ := (lookup fields "ingredients").getD (.arr [])
      match ingHtml ingJ with
      | .error e => .error e
      | .ok ih =>
        let instrHtml := String.intercalate "<br>" (pySplitlines (escStr instr))
        match esc name with
        | .error e => .error e
        | .ok nm =>
          match esc title with
          | .error e => .error e
          | .ok ti =>
            .ok (String.intercalate "\n"
              ["", "<!doctype html>", "<html>",
               "  <body style=\"font-family:system-ui,-apple-system,Segoe UI,Roboto,Arial,sans-serif;color:#0f172a;\">",
               "    <p>Hi " ++ nm ++ ", I’m <b>Emil-ia</b> 👋</p>",
               "    <p>Here’s your recipe:</p>",
               "    <h2 style=\"margin:8px 0 4px 0\">" ++ ti ++ "</h2>",
               "    <p style=\"margin:0 0 8px 0;color:#334155\">",
               "      " ++ (if truthy timeMin then "Time: ~" ++ pyFStr timeMin ++ " min • " else "")
                 ++ (if isNumLike cost then "Estimated cost: $" ++ format2f (numVal cost) ++ " • " else "")
                 ++ "Macros: " ++ escStr (macrosLine mfs),
               "    </p>",
               "    <h3 style=\"margin:16px 0 8px 0\">Ingredients</h3>",
               "    <ul style=\"margin-top:0\">" ++ ih ++ "</ul>",
               "    <h3 style=\"margin:16px 0 8px 0\">Instructions</h3>",
               "    <p style=\"white-space:pre-wrap\">" ++ instrHtml ++ "</p>",
               "    <p style=\"margin-top:16px\">Happy cooking!<br>— MealPrepAI</p>",
               "  </body>", "</html>", ""])
    | _ => .error "AttributeError: macros get"
  | _ => .error "AttributeError: recipe get"

/-- The `/email` handler (`src/app.py` lines 194–302).  Environment reads are
the `smtpUser`/`smtpPass`/`smtpFrom` parameters; the SMTP session (connect,
login, `sendmail`) is the oracle `smtp`.  Flow: read `to`, `name`, `recipe`
and `instructions`; return 400 when the stripped recipient is empty; build
the plain-text body, then the HTML body (both can raise); dry-run (no
transport) when either credential is falsy; otherwise attempt the transport
and map failure to a 500 response. -/
def email_send (data : List (String × Json))
    (smtpUser smtpPass smtpFrom : Option String) (smtp : Except String Unit) :
    Except String EmailResult :=
  match strField (getJ data "to") with
  | .error e => .error e
  | .ok toAddr =>
    let name := nameField data
    let recipe := recipeField data
    match strField (getJ data "instructions") with
    | .error e => .error e
    | .ok instr =>
      if toAddr = "" then
        .ok { resp := { ok := false, error := some "Missing recipient email",
                        status := 400 }, sent := none }
      else
        match buildTextBody name recipe instr with
        | .error e => .error e
        | .ok body =>
          match buildHtmlBody name recipe instr with
          | .error e => .error e
          | .ok _ =>
          if !credTruthy smtpUser || !credTruthy smtpPass then
            .ok { resp := { ok := true, mode := some "dry_run",
                            preview := some (preview400 body), status := 200 },
                  sent := none }
          else
            let fromAddr := smtpFrom.getD
              (if credTruthy smtpUser then smtpUser.getD "" else "no-reply@mealprep.ai")
            match smtp with
            | .ok _ =>
              .ok { resp := { ok := true, mode := some "smtp", status := 200 },
                    sent := some (fromAddr, toAddr) }
            | .error e =>
              .ok { resp := { ok := false, error := some e, status := 500 },
                    sent := some (fromAddr, toAddr) }

/-! ## Id Cache (spec §4.2) -/

/-- Modelled from the spec: the Id Cache of the generation variant
(spec §4.2) is code of this repository that is not in `src/` — `src/app.py`
contains no `Reset`/`Put`/`Get` store and no `/recipe` endpoint.  Per the
spec: a store of full recipe bodies keyed by synthetic integer ids, with an
issuing counter that survives resets. -/
structure IdCache where
  nextId : Nat
  entries : List (Nat × Json)

/-- Modelled from the spec: `Reset()` clears all entries; the issuing counter
does not roll back. -/
def IdCache.reset (c : IdCache) : IdCache :=
  { c with entries := [] }

/-- Modelled from the spec: `Put(recipe) -> id` assigns the next sequential
integer id and stores the full recipe. -/
def IdCache.put (c : IdCache) (r : Json) : Nat × IdCache :=
  (c.nextId, { nextId := c.nextId + 1, entries := c.entries ++ [(c.nextId, r)] })

/-- Modelled from the spec: `Get(id) -> Recipe | not found`; `none` is the
not-found outcome the caller surfaces as a 404-equivalent error. -/
def IdCache.get (c : IdCache) (i : Nat) : Option Json :=
  (c.entries.find? (fun p => p.1 = i)).map (·.2)

/-- A cache operation: a reset at the start of a suggestion batch, or the
storing of one generated recipe. -/
inductive CacheOp where
  | reset
  | put (r : Json)

/-- Run a sequence of cache operations. -/
def runOps (c : IdCache) : List CacheOp → IdCache
  | [] => c
  | .reset :: ops => runOps c.reset ops
  | .put r :: ops => runOps (c.put r).2 ops

/-- The ids issued (returned by `Put`) along a sequence of operations. -/
def issuedIds (c : IdCache) : List CacheOp → List Nat
  | [] => []
  | .reset :: ops => issuedIds c.reset ops
  | .put r :: ops => (c.put r).1 :: issuedIds (c.put r).2 ops

/-- Well-formedness of a cache: every stored key was issued by the counter. -/
def IdCache.Bounded (c : IdCache) : Prop :=
  ∀ p ∈ c.entries, p.1 < c.nextId

/-! ## Goal-match predicates (spec §4.1, used to state claim C3) -/

/-- The goal tags of a recipe object: the strings in its `"goal"` list. -/
def recipeGoalTags (r : Json) : List String :=
  match r with
  | .obj fs =>
    match (lookup fs "goal").getD (.arr []) with
    | .arr xs => xs.filterMap (fun j => match j with | .str s => some s | _ => none)
    | _ => []
  | _ => []

/-- Modelled from the spec: ALL match — "the subset of recipes whose goal-tag
set is a superset of every requested goal".  Stated per recipe; used only to
express claim C3, since `src/app.py` contains no goal filtering. -/
def specAllMatch (goals : List String) (r : Json) : Bool :=
  goals.all (fun g => (recipeGoalTags r).contains g)

/-- Modelled from the spec: ANY match — "the subset matching at least one
requested goal". -/
def specAnyMatch (goals : List String) (r : Json) : Bool :=
  goals.any (fun g => (recipeGoalTags r).contains g)


/-- The numeric ids of the recipes in a `/suggest` response. -/
def responseIdNums (r : SuggestResponse) : List ℚ :=
  match r.recipes with
  | .arr ys =>
    ys.filterMap (fun j =>
      match j with
      | .obj fs =>
        match lookup fs "id" with
        | some (.num q) => some q
        | _ => none
      | _ => none)
  | _ => []

/-- Whether a modelled computation returned normally (no Python exception). -/
def isOkE {α : Type} (e : Except String α) : Bool :=
  match e with
  | .ok _ => true
  | .error _ => false

/-- Per-recipe id bookkeeping of the normalisation loop: a model-supplied id
is kept unchanged, and a missing id is filled with some draw of the
`random.randint(100000, 999999)` stream. -/
def IdsOk (rng : Nat → Nat) (a b : Json) : Prop :=
  ∃ fa fb, a = Json.obj fa ∧ b = Json.obj fb ∧
    (hasKey fa "id" = true → lookup fb "id" = lookup fa "id") ∧
    (hasKey fa "id" = false →
      ∃ j, lookup fb "id" = some (Json.num (rng j)) ∧
        100000 ≤ rng j ∧ rng j ≤ 999999)

/-- Per-recipe field bookkeeping of the normalisation loop: the output dict
has `"goal"` and `"id"`, has `"cost_usd"` whenever the input had
`"cost_per_serving_usd"`, defaults a missing `"goal"` to `[]`, keeps every
input binding unchanged, and introduces no key other than the three above. -/
def FieldsOk (a b : Json) : Prop :=
  ∃ fa fb, a = Json.obj fa ∧ b = Json.obj fb ∧
    hasKey fb "goal" = true ∧ hasKey fb "id" = true ∧
    (hasKey fa "cost_per_serving_usd" = true → hasKey fb "cost_usd" = true) ∧
    (hasKey fa "goal" = false → lookup fb "goal" = some (Json.arr [])) ∧
    (∀ k, hasKey fa k = true → lookup fb k = lookup fa k) ∧
    (∀ k, hasKey fa k = false → k ≠ "goal" → k ≠ "id" → k ≠ "cost_usd" →
      lookup fb k = none)

/-! ## Association-list lemmas -/

theorem lookup_append (fs l : List (String × Json)) (k : String) :
    lookup (fs ++ l) k = if hasKey fs k then lookup fs k else lookup l k := by
  induction fs with
  | nil => simp [lookup, hasKey]
  | cons p fs ih =>
    have hstep : lookup ((p :: fs) ++ l) k
        = if p.1 = k then some p.2 else lookup (fs ++ l) k := rfl
    have hstep2 : lookup (p :: fs) k
        = if p.1 = k then some p.2 else lookup fs k := rfl
    by_cases h : p.1 = k
    · have hk : hasKey (p :: fs) k = true := by simp [hasKey, hstep2, h]
      rw [hstep, if_pos h, hk, if_pos rfl, hstep2, if_pos h]
    · have hk : hasKey (p :: fs) k = hasKey fs k := by simp [hasKey, hstep2, h]
      rw [hstep, if_neg h, ih, hk, hstep2, if_neg h]

theorem lookup_none (fs : List (String × Json)) (k : String)
    (h : hasKey fs k = false) : lookup fs k = none := by
  cases hl : lookup fs k with
  | none => rfl
  | some v => rw [hasKey, hl] at h; simp at h

theorem lookup_of_hasKey_append (fs l : List (String × Json)) (k : String)
    (h : hasKey fs k = true) : lookup (fs ++ l) k = lookup fs k := by
  rw [lookup_append, if_pos h]

theorem lookup_append_single_ne (fs : List (String × Json)) (k k₂ : String)
    (v : Json) (h : k ≠ k₂) : lookup (fs ++ [(k₂, v)]) k = lookup fs k := by
  rw [lookup_append]
  by_cases hk : hasKey fs k
  · rw [if_pos hk]
  · rw [if_neg (by simp [hk]), lookup_none fs k (by simpa using hk),
      lookup, if_neg (Ne.symm h)]
    rfl

theorem hasKey_append_single_ne (fs : List (String × Json)) (k k₂ : String)
    (v : Json) (h : k ≠ k₂) : hasKey (fs ++ [(k₂, v)]) k = hasKey fs k := by
  rw [hasKey, lookup_append_single_ne fs k k₂ v h, hasKey]

theorem hasKey_mono (fs l : List (String × Json)) (k : String)
    (h : hasKey fs k = true) : hasKey (fs ++ l) k = true := by
  rw [hasKey, lookup_of_hasKey_append fs l k h]
  exact h

theorem lookup_append_single_self (fs : List (String × Json)) (k : String)
    (v : Json) (h : hasKey fs k = false) : lookup (fs ++ [(k, v)]) k = some v := by
  rw [lookup_append, if_neg (by simp [h]), lookup, if_pos rfl]

theorem hasKey_append_single_self (fs : List (String × Json)) (k : String)
    (v : Json) (h : hasKey fs k = false) : hasKey (fs ++ [(k, v)]) k = true := by
  rw [hasKey, lookup_append_single_self fs k v h]
  rfl

theorem lookup_setMap (fs : List (String × Json)) (k k' : String) (v : Json)
    (h : k' ≠ k) :
    lookup (fs.map (fun p => if p.1 = k then (k, v) else p)) k' = lookup fs k' := by
  induction fs with
  | nil => rfl
  | cons p fs ih =>
    have hstep2 : lookup (p :: fs) k'
        = if p.1 = k' then some p.2 else lookup fs k' := rfl
    by_cases hp : p.1 = k
    · have hstep : lookup ((p :: fs).map (fun p => if p.1 = k then (k, v) else p)) k'
          = if (if p.1 = k then (k, v) else p).1 = k'
            then some (if p.1 = k then (k, v) else p).2
            else lookup (fs.map (fun p => if p.1 = k then (k, v) else p)) k' := rfl
      rw [hstep, if_pos hp,
        if_neg (show ¬((k, v).1 = k') from Ne.symm h), ih, hstep2,
        if_neg (fun hh : p.1 = k' => h (hh ▸ hp))]
    · have hstep : lookup ((p :: fs).map (fun p => if p.1 = k then (k, v) else p)) k'
          = if (if p.1 = k then (k, v) else p).1 = k'
            then some (if p.1 = k then (k, v) else p).2
            else lookup (fs.map (fun p => if p.1 = k then (k, v) else p)) k' := rfl
      rw [hstep, if_neg hp, ih, hstep2]

theorem lookup_setMap_self (fs : List (String × Json)) (k : String) (v : Json)
    (h : hasKey fs k = true) :
    lookup (fs.map (fun p => if p.1 = k then (k, v) else p)) k = some v := by
  induction fs with
  | nil => simp [hasKey, lookup] at h
  | cons p fs ih =>
    have hstep : lookup ((p :: fs).map (fun p => if p.1 = k then (k, v) else p)) k
        = if (if p.1 = k then (k, v) else p).1 = k
          then some (if p.1 = k then (k, v) else p).2
          else lookup (fs.map (fun p => if p.1 = k then (k, v) else p)) k := rfl
    by_cases hp : p.1 = k
    · rw [hstep, if_pos hp, if_pos (show ((k, v) : String × Json).1 = k from rfl)]
    · have hk : hasKey fs k = true := by
        rw [hasKey] at h ⊢
        rw [show lookup (p :: fs) k = if p.1 = k then some p.2 else lookup fs k from rfl,
          if_neg hp] at h
        exact h
      rw [hstep, if_neg hp, if_neg hp, ih hk]

theorem lookup_dictSet_self (fs : List (String × Json)) (k : String) (v : Json) :
    lookup (dictSet fs k v) k = some v := by
  unfold dictSet
  by_cases hk : hasKey fs k = true
  · rw [if_pos hk, lookup_setMap_self fs k v hk]
  · rw [if_neg hk, lookup_append_single_self fs k v (by simpa using hk)]

theorem lookup_dictSet_ne (fs : List (String × Json)) (k k' : String) (v : Json)
    (h : k' ≠ k) : lookup (dictSet fs k v) k' = lookup fs k' := by
  unfold dictSet
  by_cases hk : hasKey fs k
  · rw [if_pos hk, lookup_setMap fs k k' v h]
  · rw [if_neg (by simp [hk]), lookup_append_single_ne fs k' k v h]

theorem getJ_dictSet_ne (fs : List (String × Json)) (k k' : String) (v : Json)
    (h : k' ≠ k) : getJ (dictSet fs k v) k' = getJ fs k' := by
  rw [getJ, lookup_dictSet_ne fs k k' v h, getJ]

/-! ## Lemmas about the per-recipe normalisation stages -/

theorem lookup_goalDefaulted_ne (fs : List (String × Json)) (k : String)
    (h : k ≠ "goal") : lookup (goalDefaulted fs) k = lookup fs k := by
  unfold goalDefaulted
  by_cases hg : hasKey fs "goal" = true
  · rw [if_pos hg]
  · rw [if_neg hg, lookup_append_single_ne fs k "goal" _ h]

theorem lookup_idDefaulted_ne (v : Nat) (fs : List (String × Json)) (k : String)
    (h : k ≠ "id") : lookup (idDefaulted v fs) k = lookup fs k := by
  unfold idDefaulted
  by_cases hg : hasKey fs "id" = true
  · rw [if_pos hg]
  · rw [if_neg hg, lookup_append_single_ne fs k "id" _ h]

theorem lookup_costNormalized_ne (fs : List (String × Json)) (k : String)
    (h : k ≠ "cost_usd") : lookup (costNormalized fs) k = lookup fs k := by
  unfold costNormalized
  by_cases hg : (hasKey fs "cost_per_serving_usd" && !hasKey fs "cost_usd") = true
  · rw [if_pos hg, lookup_append_single_ne fs k "cost_usd" _ h]
  · rw [if_neg hg]

theorem lookup_goalDefaulted_of_hasKey (fs : List (String × Json)) (k : String)
    (h : hasKey fs k = true) : lookup (goalDefaulted fs) k = lookup fs k := by
  unfold goalDefaulted
  by_cases hg : hasKey fs "goal" = true
  · rw [if_pos hg]
  · rw [if_neg hg, lookup_of_hasKey_append fs _ k h]

theorem lookup_idDefaulted_of_hasKey (v : Nat) (fs : List (String × Json))
    (k : String) (h : hasKey fs k = true) :
    lookup (idDefaulted v fs) k = lookup fs k := by
  unfold idDefaulted
  by_cases hg : hasKey fs "id" = true
  · rw [if_pos hg]
  · rw [if_neg hg, lookup_of_hasKey_append fs _ k h]

theorem lookup_costNormalized_of_hasKey (fs : List (String × Json)) (k : String)
    (h : hasKey fs k = true) : lookup (costNormalized fs) k = lookup fs k := by
  unfold costNormalized
  by_cases hg : (hasKey fs "cost_per_serving_usd" && !hasKey fs "cost_usd") = true
  · rw [if_pos hg, lookup_of_hasKey_append fs _ k h]
  · rw [if_neg hg]

theorem hasKey_goalDefaulted_of_hasKey (fs : List (String × Json)) (k : String)
    (h : hasKey fs k = true) : hasKey (goalDefaulted fs) k = true := by
  rw [hasKey, lookup_goalDefaulted_of_hasKey fs k h]
  exact h

theorem hasKey_idDefaulted_of_hasKey (v : Nat) (fs : List (String × Json))
    (k : String) (h : hasKey fs k = true) : hasKey (idDefaulted v fs) k = true := by
  rw [hasKey, lookup_idDefaulted_of_hasKey v fs k h]
  exact h

theorem hasKey_goalDefaulted_ne (fs : List (String × Json)) (k : String)
    (h : k ≠ "goal") : hasKey (goalDefaulted fs) k = hasKey fs k := by
  rw [hasKey, lookup_goalDefaulted_ne fs k h, hasKey]

theorem hasKey_goalDefaulted_goal (fs : List (String × Json)) :
    hasKey (goalDefaulted fs) "goal" = true := by
  unfold goalDefaulted
  by_cases hg : hasKey fs "goal" = true
  · rw [if_pos hg]
    exact hg
  · rw [if_neg hg]
    exact hasKey_append_single_self fs "goal" _ (by simpa using hg)

theorem hasKey_idDefaulted_id (v : Nat) (fs : List (String × Json)) :
    hasKey (idDefaulted v fs) "id" = true := by
  unfold idDefaulted
  by_cases hg : hasKey fs "id" = true
  · rw [if_pos hg]
    exact hg
  · rw [if_neg hg]
    exact hasKey_append_single_self fs "id" _ (by simpa using hg)

theorem lookup_goalDefaulted_absent (fs : List (String × Json))
    (h : hasKey fs "goal" = false) :
    lookup (goalDefaulted fs) "goal" = some (Json.arr []) := by
  unfold goalDefaulted
  rw [if_neg (by simp [h]), lookup_append_single_self fs "goal" _ h]

theorem lookup_idDefaulted_absent (v : Nat) (fs : List (String × Json))
    (h : hasKey fs "id" = false) :
    lookup (idDefaulted v fs) "id" = some (Json.num v) := by
  unfold idDefaulted
  rw [if_neg (by simp [h]), lookup_append_single_self fs "id" _ h]

theorem hasKey_costNormalized_cost (fs : List (String × Json))
    (h : hasKey fs "cost_per_serving_usd" = true) :
    hasKey (costNormalized fs) "cost_usd" = true := by
  unfold costNormalized
  by_cases hc : hasKey fs "cost_usd" = true
  · rw [if_neg (by simp [hc])]
    exact hc
  · have hc' : hasKey fs "cost_usd" = false := by simpa using hc
    rw [if_pos (by simp [h, hc'])]
    exact hasKey_append_single_self fs "cost_usd" _ hc'

theorem hasKey_costNormalized_of_hasKey (fs : List (String × Json)) (k : String)
    (h : hasKey fs k = true) : hasKey (costNormalized fs) k = true := by
  rw [hasKey, lookup_costNormalized_of_hasKey fs k h]
  exact h

/-! ## Lemmas about `fixupObj` and `fixupRecipes` -/

theorem lookup_fixupObj_of_hasKey (v : Nat) (fs : List (String × Json))
    (k : String) (h : hasKey fs k = true) :
    lookup (fixupObj v fs) k = lookup fs k := by
  unfold fixupObj
  rw [lookup_costNormalized_of_hasKey _ k
      (hasKey_idDefaulted_of_hasKey v _ k (hasKey_goalDefaulted_of_hasKey fs k h)),
    lookup_idDefaulted_of_hasKey v _ k (hasKey_goalDefaulted_of_hasKey fs k h),
    lookup_goalDefaulted_of_hasKey fs k h]

theorem hasKey_fixupObj_of_hasKey (v : Nat) (fs : List (String × Json))
    (k : String) (h : hasKey fs k = true) : hasKey (fixupObj v fs) k = true := by
  rw [hasKey, lookup_fixupObj_of_hasKey v fs k h]
  exact h

theorem hasKey_fixupObj_goal (v : Nat) (fs : List (String × Json)) :
    hasKey (fixupObj v fs) "goal" = true := by
  unfold fixupObj
  exact hasKey_costNormalized_of_hasKey _ _
    (hasKey_idDefaulted_of_hasKey v _ _ (hasKey_goalDefaulted_goal fs))

theorem hasKey_fixupObj_id (v : Nat) (fs : List (String × Json)) :
    hasKey (fixupObj v fs) "id" = true := by
  unfold fixupObj
  exact hasKey_costNormalized_of_hasKey _ _ (hasKey_idDefaulted_id v _)

theorem lookup_fixupObj_goal_absent (v : Nat) (fs : List (String × Json))
    (h : hasKey fs "goal" = false) :
    lookup (fixupObj v fs) "goal" = some (Json.arr []) := by
  unfold fixupObj
  rw [lookup_costNormalized_ne _ _ (by decide), lookup_idDefaulted_ne v _ _ (by decide),
    lookup_goalDefaulted_absent fs h]

theorem lookup_fixupObj_id_absent (v : Nat) (fs : List (String × Json))
    (h : hasKey fs "id" = false) :
    lookup (fixupObj v fs) "id" = some (Json.num v) := by
  unfold fixupObj
  rw [lookup_costNormalized_ne _ _ (by decide),
    lookup_idDefaulted_absent v _ (by rw [hasKey_goalDefaulted_ne fs "id" (by decide)]; exact h)]

theorem hasKey_fixupObj_cost (v : Nat) (fs : List (String × Json))
    (h : hasKey fs "cost_per_serving_usd" = true) :
    hasKey (fixupObj v fs) "cost_usd" = true := by
  unfold fixupObj
  exact hasKey_costNormalized_cost _
    (hasKey_idDefaulted_of_hasKey v _ _ (hasKey_goalDefaulted_of_hasKey fs _ h))

theorem lookup_fixupObj_absent (v : Nat) (fs : List (String × Json)) (k : String)
    (h : hasKey fs k = false) (h₁ : k ≠ "goal") (h₂ : k ≠ "id")
    (h₃ : k ≠ "cost_usd") : lookup (fixupObj v fs) k = none := by
  unfold fixupObj
  rw [lookup_costNormalized_ne _ _ h₃, lookup_idDefaulted_ne v _ _ h₂,
    lookup_goalDefaulted_ne fs _ h₁, lookup_none fs k h]

theorem idWasAbsent_eq (fs : List (String × Json)) :
    idWasAbsent fs = !hasKey fs "id" := by
  rw [idWasAbsent, hasKey_goalDefaulted_ne fs "id" (by decide)]

theorem fixupRecipes_nil (rng : Nat → Nat) (k : Nat) :
    fixupRecipes rng k [] = .ok [] := rfl

theorem fixupRecipes_cons_obj (rng : Nat → Nat) (k : Nat)
    (fs : List (String × Json)) (rest : List Json) :
    fixupRecipes rng k (.obj fs :: rest)
      = (fixupRecipes rng (if idWasAbsent fs then k + 1 else k) rest).map
          (Json.obj (fixupObj (rng k) fs) :: ·) := rfl

theorem fixupRecipes_length (rng : Nat → Nat) :
    ∀ (k : Nat) (xs ys : List Json),
      fixupRecipes rng k xs = .ok ys → ys.length = xs.length := by
  intro k xs
  induction xs generalizing k with
  | nil =>
    intro ys h
    rw [fixupRecipes_nil] at h
    cases h
    rfl
  | cons x rest ih =>
    intro ys h
    cases x with
    | obj fs =>
      rw [fixupRecipes_cons_obj] at h
      cases hr : fixupRecipes rng (if idWasAbsent fs then k + 1 else k) rest with
      | error e => rw [hr] at h; cases h
      | ok zs =>
        rw [hr] at h
        cases h
        simp [List.length_cons, ih _ zs hr]
    | null => cases h
    | bool b => cases h
    | num q => cases h
    | str s => cases h
    | arr xs => cases h

theorem fixupRecipes_idsOk (rng : Nat → Nat)
    (hrng : ∀ i, 100000 ≤ rng i ∧ rng i ≤ 999999) :
    ∀ (k : Nat) (xs ys : List Json), fixupRecipes rng k xs = .ok ys →
      List.Forall₂ (IdsOk rng) xs ys := by
  intro k xs
  induction xs generalizing k with
  | nil =>
    intro ys h
    rw [fixupRecipes_nil] at h
    cases h
    exact List.Forall₂.nil
  | cons x rest ih =>
    intro ys h
    cases x with
    | obj fs =>
      rw [fixupRecipes_cons_obj] at h
      cases hrec : fixupRecipes rng (if idWasAbsent fs then k + 1 else k) rest with
      | error e => rw [hrec] at h; cases h
      | ok zs =>
        rw [hrec] at h
        cases h
        refine List.Forall₂.cons ⟨fs, fixupObj (rng k) fs, rfl, rfl, ?_, ?_⟩ (ih _ zs hrec)
        · intro hid
          exact lookup_fixupObj_of_hasKey (rng k) fs "id" hid
        · intro hid
          exact ⟨k, lookup_fixupObj_id_absent (rng k) fs hid, (hrng k).1, (hrng k).2⟩
    | null => cases h
    | bool b => cases h
    | num q => cases h
    | str s => cases h
    | arr zs => cases h

theorem fixupRecipes_fieldsOk (rng : Nat → Nat) :
    ∀ (k : Nat) (xs ys : List Json), fixupRecipes rng k xs = .ok ys →
      List.Forall₂ FieldsOk xs ys := by
  intro k xs
  induction xs generalizing k with
  | nil =>
    intro ys h
    rw [fixupRecipes_nil] at h
    cases h
    exact List.Forall₂.nil
  | cons x rest ih =>
    intro ys h
    cases x with
    | obj fs =>
      rw [fixupRecipes_cons_obj] at h
      cases hrec : fixupRecipes rng (if idWasAbsent fs then k + 1 else k) rest with
      | error e => rw [hrec] at h; cases h
      | ok zs =>
        rw [hrec] at h
        cases h
        refine List.Forall₂.cons
          ⟨fs, fixupObj (rng k) fs, rfl, rfl,
            hasKey_fixupObj_goal (rng k) fs, hasKey_fixupObj_id (rng k) fs,
            fun hc => hasKey_fixupObj_cost (rng k) fs hc,
            fun hg => lookup_fixupObj_goal_absent (rng k) fs hg,
            fun k' hk => lookup_fixupObj_of_hasKey (rng k) fs k' hk,
            fun k' hk h₁ h₂ h₃ => lookup_fixupObj_absent (rng k) fs k' hk h₁ h₂ h₃⟩
          (ih _ zs hrec)
    | null => cases h
    | bool b => cases h
    | num q => cases h
    | str s => cases h
    | arr zs => cases h

/-! ## Lemmas about the `suggest` handler -/

theorem suggest_ok_arr (data : List (String × Json))
    (call : Except String (Option String)) (loads : String → Except String Json)
    (rng : Nat → Nat) (resp : SuggestResponse) (xs : List Json)
    (h : suggest data call loads rng = .ok resp)
    (ht : tryBlock call loads = .ok (.arr xs)) :
    ∃ ys, fixupRecipes rng 0 xs = .ok ys
      ∧ resp = { recipes := .arr ys, error := none, status := 200 } := by
  unfold suggest at h
  cases hp : suggestPreamble data with
  | error e => rw [hp] at h; cases h
  | ok p =>
    rw [hp] at h
    simp only [ht] at h
    cases hf : fixupRecipes rng 0 xs with
    | error e => rw [hf] at h; cases h
    | ok ys =>
      rw [hf] at h
      cases h
      exact ⟨ys, rfl, rfl⟩

theorem suggestPreamble_limit_bounds (data : List (String × Json))
    (p : String × String × Int) (h : suggestPreamble data = .ok p) :
    3 ≤ p.2.2 ∧ p.2.2 ≤ 6 := by
  unfold suggestPreamble at h
  cases h1 : strFieldLower (getJ data "meal_type") with
  | error e => rw [h1] at h; cases h
  | ok mt =>
    rw [h1] at h
    cases h2 : strField (getJ data "comments") with
    | error e => rw [h2] at h; cases h
    | ok cm =>
      rw [h2] at h
      cases h3 : limitOf data with
      | error e => rw [h3] at h; cases h
      | ok l =>
        rw [h3] at h
        cases h
        exact ⟨le_max_left 3 (min l 6), max_le (by norm_num) (min_le_right l 6)⟩

theorem suggest_congr (data₁ data₂ : List (String × Json))
    (h : suggestPreamble data₁ = suggestPreamble data₂)
    (call : Except String (Option String)) (loads : String → Except String Json)
    (rng : Nat → Nat) :
    suggest data₁ call loads rng = suggest data₂ call loads rng := by
  unfold suggest
  rw [h]

theorem suggestPreamble_dictSet_goals (data : List (String × Json)) (g : Json) :
    suggestPreamble (dictSet data "goals" g) = suggestPreamble data := by
  unfold suggestPreamble limitOf
  rw [getJ_dictSet_ne data "goals" "meal_type" g (by decide),
    getJ_dictSet_ne data "goals" "comments" g (by decide),
    getJ_dictSet_ne data "goals" "limit" g (by decide)]

/-! ## Lemmas about the Id Cache model -/

theorem runOps_nextId_le (ops : List CacheOp) :
    ∀ c : IdCache, c.nextId ≤ (runOps c ops).nextId := by
  induction ops with
  | nil => intro c; exact le_refl _
  | cons op ops ih =>
    intro c
    cases op with
    | reset => exact ih c.reset
    | put r => exact le_trans (Nat.le_succ _) (ih (c.put r).2)

theorem issuedIds_lt (ops : List CacheOp) :
    ∀ (c : IdCache) (i : Nat), i ∈ issuedIds c ops → i < (runOps c ops).nextId := by
  induction ops with
  | nil => intro c i h; cases h
  | cons op ops ih =>
    intro c i h
    cases op with
    | reset => exact ih c.reset i h
    | put r =>
      rcases List.mem_cons.mp h with h1 | h1
      · have : c.nextId < (c.put r).2.nextId := Nat.lt_succ_self _
        exact h1 ▸ lt_of_lt_of_le this (runOps_nextId_le ops (c.put r).2)
      · exact ih (c.put r).2 i h1

theorem runOps_keys_ge (ops : List CacheOp) :
    ∀ (c : IdCache) (n : Nat), (∀ p ∈ c.entries, n ≤ p.1) → n ≤ c.nextId →
      ∀ p ∈ (runOps c ops).entries, n ≤ p.1 := by
  induction ops with
  | nil => intro c n he _ p hp; exact he p hp
  | cons op ops ih =>
    intro c n he hn
    cases op with
    | reset =>
      refine ih c.reset n ?_ hn
      intro p hp
      cases hp
    | put r =>
      refine ih (c.put r).2 n ?_ (le_trans hn (Nat.le_succ _))
      intro p hp
      rcases List.mem_append.mp hp with h1 | h1
      · exact he p h1
      · rcases List.mem_singleton.mp h1 with h2
        rw [h2]
        exact hn

theorem IdCache.get_none_of_keys_ne (c : IdCache) (i : Nat)
    (h : ∀ p ∈ c.entries, p.1 ≠ i) : c.get i = none := by
  unfold IdCache.get
  rw [List.find?_eq_none.mpr]
  · rfl
  · intro p hp
    simpa using h p hp

/-! ## Claims -/

/-- C2: for every id issued before a `Reset` of the Id Cache, a subsequent
`Get(id)` returns the not-found outcome (`none`, surfaced as a
404-equivalent error), never a recipe from the new batch, regardless of the
operations performed after the reset — the issuing counter never rolls back,
so post-reset `Put`s can only store strictly larger ids. -/
theorem idCache_stale_ids_not_found (c : IdCache) (ops₁ ops₂ : List CacheOp)
    (i : Nat) (hi : i ∈ issuedIds c ops₁) :
    (runOps (runOps c ops₁).reset ops₂).get i = none := by
  have hlt : i < (runOps c ops₁).nextId := issuedIds_lt ops₁ c i hi
  have hkeys : ∀ p ∈ (runOps (runOps c ops₁).reset ops₂).entries,
      (runOps c ops₁).nextId ≤ p.1 := by
    refine runOps_keys_ge ops₂ (runOps c ops₁).reset (runOps c ops₁).nextId ?_ (le_refl _)
    intro p hp
    cases hp
  refine IdCache.get_none_of_keys_ne _ i (fun p hp => ?_)
  have := hkeys p hp
  omega

/-- C2 witness: starting from a fresh cache, the id 0 issued by the first
`Put` is not found after a reset even though a new `Put` stored a recipe
afterwards. -/
theorem idCache_stale_ids_not_found_witness :
    0 ∈ issuedIds ⟨0, []⟩ [CacheOp.put .null]
    ∧ (runOps (runOps ⟨0, []⟩ [CacheOp.put .null]).reset
        [CacheOp.put (.str "other")]).get 0 = none := by
  constructor
  · exact List.mem_singleton.mpr rfl
  · exact idCache_stale_ids_not_found ⟨0, []⟩ [CacheOp.put .null]
      [CacheOp.put (.str "other")] 0 (List.mem_singleton.mpr rfl)

/-- C5: once the request preamble has been processed, a generation-call
failure and a `json.loads` parse failure are handled identically: the
handler catches the exception and returns `{"recipes": [], "error": str(e)}`
with the success-shaped status 200. -/
theorem suggest_failure_uniform (data : List (String × Json))
    (call : Except String (Option String)) (loads : String → Except String Json)
    (rng : Nat → Nat) (p : String × String × Int)
    (hp : suggestPreamble data = .ok p) :
    (∀ e, call = .error e → suggest data call loads rng
        = .ok { recipes := .arr [], error := some e, status := 200 })
    ∧ (∀ raw e, call = .ok (some raw) → loads (pyStrip raw) = .error e →
        suggest data call loads rng
          = .ok { recipes := .arr [], error := some e, status := 200 }) := by
  constructor
  · intro e he
    unfold suggest
    rw [hp]
    simp only [tryBlock, he]
  · intro raw e hc hl
    unfold suggest
    rw [hp]
    simp only [tryBlock, hc, hl]

/-- C5 witness: a transport failure `"boom"` and a parse failure
`"bad json"` both yield the empty-recipes 200 response carrying the error
text. -/
theorem suggest_failure_uniform_witness :
    suggest [] (.error "boom") (fun _ => .ok .null) (fun _ => 0)
      = .ok { recipes := .arr [], error := some "boom", status := 200 }
    ∧ suggest [] (.ok (some "zz")) (fun _ => .error "bad json") (fun _ => 0)
      = .ok { recipes := .arr [], error := some "bad json", status := 200 } := by
  constructor
  · exact (suggest_failure_uniform [] (.error "boom") (fun _ => .ok .null)
      (fun _ => 0) ("", "", 5) rfl).1 "boom" rfl
  · exact (suggest_failure_uniform [] (.ok (some "zz")) (fun _ => .error "bad json")
      (fun _ => 0) ("", "", 5) rfl).2 "zz" "bad json" rfl rfl

/-- C8: for every successful `/ai/instructions` request (one whose `recipe`
value reads as a dict, so the prompt assembly raises nothing), the `message`
field is exactly the external collaborator's output text post-processed by
the source's normalisation: strip, replace every `". "` by `".\n"`, replace
every `"  "` by `" "`, strip (`src/app.py` lines 156–158; a `None` output
reads as the empty string). -/
theorem ai_instructions_normalizes (data : List (String × Json))
    (out : Option String) (fs : List (String × Json))
    (hrec : recipeField data = .obj fs) :
    ai_instructions data (.ok out)
      = .ok { message := normalizeInstructions (out.getD ""), error := none,
              status := 200 } := by
  unfold ai_instructions
  rw [hrec]

/-- C8 witness: on the output `"Mix well. Serve hot.  Enjoy!"` the response
message breaks the numbered-step sentences onto their own lines. -/
theorem ai_instructions_normalizes_witness :
    ai_instructions [] (.ok (some "Mix well. Serve hot.  Enjoy!"))
      = .ok { message := "Mix well.\nServe hot.\n Enjoy!", error := none,
              status := 200 } := by
  have h := ai_instructions_normalizes [] (some "Mix well. Serve hot.  Enjoy!") [] rfl
  exact h.trans (by rfl)

/-- C10: whenever `/suggest` answers from a successfully parsed recipe list
`xs`, the response is error-free and its recipe list relates to `xs`
element-wise by `FieldsOk`: every returned recipe has a `"goal"` key (the
empty list when the model omitted it) and an `"id"` key, has `"cost_usd"`
whenever the model supplied `"cost_per_serving_usd"`, and every other field
is returned unchanged (existing bindings kept verbatim, no other key
introduced). -/
theorem suggest_recipe_fields (data : List (String × Json))
    (call : Except String (Option String)) (loads : String → Except String Json)
    (rng : Nat → Nat) (resp : SuggestResponse) (xs : List Json)
    (h : suggest data call loads rng = .ok resp)
    (ht : tryBlock call loads = .ok (.arr xs)) :
    resp.error = none ∧ ∃ ys, resp.recipes = .arr ys ∧ List.Forall₂ FieldsOk xs ys := by
  rcases suggest_ok_arr data call loads rng resp xs h ht with ⟨ys, hf, hr⟩
  subst hr
  exact ⟨rfl, ys, rfl, fixupRecipes_fieldsOk rng 0 xs ys hf⟩

/-- C10 witness: a parsed recipe carrying only a title and
`cost_per_serving_usd` comes back with `goal`, `id` and `cost_usd` appended
and the original fields untouched. -/
theorem suggest_recipe_fields_witness :
    ({ recipes := .arr [.obj [("title", .str "T"), ("cost_per_serving_usd", .num 3),
        ("goal", .arr []), ("id", .num 100000), ("cost_usd", .num 3)]],
       error := none, status := 200 } : SuggestResponse).error = none
    ∧ ∃ ys, ({ recipes := .arr [.obj [("title", .str "T"),
        ("cost_per_serving_usd", .num 3), ("goal", .arr []), ("id", .num 100000),
        ("cost_usd", .num 3)]], error := none, status := 200 } : SuggestResponse).recipes
        = .arr ys
      ∧ List.Forall₂ FieldsOk
          [.obj [("title", .str "T"), ("cost_per_serving_usd", .num 3)]] ys :=
  suggest_recipe_fields []
    (.ok (some "x"))
    (fun _ => .ok (.obj [("recipes",
      .arr [.obj [("title", .str "T"), ("cost_per_serving_usd", .num 3)]])]))
    (fun _ => 100000)
    { recipes := .arr [.obj [("title", .str "T"), ("cost_per_serving_usd", .num 3),
        ("goal", .arr []), ("id", .num 100000), ("cost_usd", .num 3)]],
      error := none, status := 200 }
    [.obj [("title", .str "T"), ("cost_per_serving_usd", .num 3)]]
    (by rfl) (by rfl)

/-- C1 counterexample: `/suggest` ids are not sequential.  With two parsed
recipes lacking ids and the `random.randint(100000, 999999)` stream (here
returning 123456 twice, which `randint` may legitimately do), the handler
issues the id value 123456 twice in one response: ids are not the next
sequential integer, are not monotonically increasing, and an issued value is
issued again. -/
theorem suggest_ids_not_sequential_cex :
    suggest [] (.ok (some "x"))
        (fun _ => .ok (.obj [("recipes", .arr [.obj [], .obj []])]))
        (fun _ => 123456)
      = .ok { recipes := .arr [.obj [("goal", .arr []), ("id", .num 123456)],
                               .obj [("goal", .arr []), ("id", .num 123456)]],
              error := none, status := 200 }
    ∧ responseIdNums
        { recipes := .arr [.obj [("goal", .arr []), ("id", .num 123456)],
            .obj [("goal", .arr []), ("id", .num 123456)]],
          error := none, status := 200 }
        = [123456, 123456]
    ∧ ¬ List.Chain' (fun a b : ℚ => a < b) [123456, 123456] := by
  refine ⟨by rfl, by rfl, by simp⟩

/-- C1 (amended): `src/app.py` has no sequential id counter.  A recipe whose
parsed dict already carries an `"id"` keeps it unchanged; a recipe lacking
one is assigned a `random.randint(100000, 999999)` draw, which lies in
[100000, 999999] but may repeat and need not increase. -/
theorem suggest_ids_random_or_kept (rng : Nat → Nat)
    (hrng : ∀ i, 100000 ≤ rng i ∧ rng i ≤ 999999)
    (data : List (String × Json)) (call : Except String (Option String))
    (loads : String → Except String Json) (resp : SuggestResponse)
    (xs : List Json) (h : suggest data call loads rng = .ok resp)
    (ht : tryBlock call loads = .ok (.arr xs)) :
    ∃ ys, resp.recipes = .arr ys ∧ List.Forall₂ (IdsOk rng) xs ys := by
  rcases suggest_ok_arr data call loads rng resp xs h ht with ⟨ys, hf, hr⟩
  subst hr
  exact ⟨ys, rfl, fixupRecipes_idsOk rng hrng 0 xs ys hf⟩

/-- C1 amended witness: one recipe with the model id 7 and one without; the
first keeps id 7, the second receives the draw 500000. -/
theorem suggest_ids_random_or_kept_witness :
    ∃ ys, ({ recipes := .arr [.obj [("id", .num 7), ("goal", .arr [])],
                              .obj [("goal", .arr []), ("id", .num 500000)]],
             error := none, status := 200 } : SuggestResponse).recipes = .arr ys
      ∧ List.Forall₂ (IdsOk (fun _ => 500000))
          [.obj [("id", .num 7)], .obj []] ys :=
  suggest_ids_random_or_kept (fun _ => 500000)
    (fun _ => by norm_num) []
    (.ok (some "x"))
    (fun _ => .ok (.obj [("recipes", .arr [.obj [("id", .num 7)], .obj []])]))
    { recipes := .arr [.obj [("id", .num 7), ("goal", .arr [])],
        .obj [("goal", .arr []), ("id", .num 500000)]],
      error := none, status := 200 }
    [.obj [("id", .num 7)], .obj []]
    (by rfl) (by rfl)

/-- C3 counterexample: `/suggest` applies no goal filtering.  With the
requested goal list `["vegan"]` and a generated batch whose only recipe is
tagged `keto_friendly` — so both the spec's ALL-match and ANY-match subsets
of the batch are empty — the handler still returns that recipe. -/
theorem suggest_goal_filter_cex :
    suggest [("goals", .arr [.str "vegan"])] (.ok (some "x"))
        (fun _ => .ok (.obj [("recipes",
          .arr [.obj [("id", .num 1), ("goal", .arr [.str "keto_friendly"])]])]))
        (fun _ => 100000)
      = .ok { recipes := .arr [.obj [("id", .num 1),
                                     ("goal", .arr [.str "keto_friendly"])]],
              error := none, status := 200 }
    ∧ specAllMatch ["vegan"]
        (.obj [("id", .num 1), ("goal", .arr [.str "keto_friendly"])]) = false
    ∧ specAnyMatch ["vegan"]
        (.obj [("id", .num 1), ("goal", .arr [.str "keto_friendly"])]) = false := by
  refine ⟨by rfl, by rfl, by rfl⟩

/-- C3 (amended): the `goals` field of a `/suggest` request influences only
the prompt string handed to the opaque generation call; with the call
outcome held fixed, the handler's response is identical for any two values
of the `goals` field, so no goal filtering of the candidate set occurs in
the handler. -/
theorem suggest_ignores_goals (data : List (String × Json)) (g₁ g₂ : Json)
    (call : Except String (Option String)) (loads : String → Except String Json)
    (rng : Nat → Nat) :
    suggest (dictSet data "goals" g₁) call loads rng
      = suggest (dictSet data "goals" g₂) call loads rng :=
  suggest_congr _ _
    ((suggestPreamble_dictSet_goals data g₁).trans
      (suggestPreamble_dictSet_goals data g₂).symm) call loads rng

/-- C4 counterexample: the clamped limit is never used to truncate.  With
`limit = 10` (clamped to 6) and a parsed batch of seven recipes, the
response carries all seven entries. -/
theorem suggest_no_truncation_cex :
    suggest [("limit", .num 10)] (.ok (some "x"))
        (fun _ => .ok (.obj [("recipes", .arr
          [.obj [("id", .num 1), ("goal", .arr [])],
           .obj [("id", .num 2), ("goal", .arr [])],
           .obj [("id", .num 3), ("goal", .arr [])],
           .obj [("id", .num 4), ("goal", .arr [])],
           .obj [("id", .num 5), ("goal", .arr [])],
           .obj [("id", .num 6), ("goal", .arr [])],
           .obj [("id", .num 7), ("goal", .arr [])]])]))
        (fun _ => 100000)
      = .ok { recipes := .arr
                [.obj [("id", .num 1), ("goal", .arr [])],
                 .obj [("id", .num 2), ("goal", .arr [])],
                 .obj [("id", .num 3), ("goal", .arr [])],
                 .obj [("id", .num 4), ("goal", .arr [])],
                 .obj [("id", .num 5), ("goal", .arr [])],
                 .obj [("id", .num 6), ("goal", .arr [])],
                 .obj [("id", .num 7), ("goal", .arr [])]],
              error := none, status := 200 }
    ∧ limitOf [("limit", .num 10)] = .ok 10
    ∧ clampLimit 10 = 6
    ∧ ¬ ((7 : Nat) ≤ 6) := by
  refine ⟨by rfl, by rfl, by rfl, by norm_num⟩

/-- C4 (amended): the limit is clamped to the configured range [3, 6], but
it is used only inside the generation prompt; the response returns the
normalised parsed list whole — same length, element-wise in order — with no
truncation to the limit. -/
theorem suggest_limit_clamped_no_truncation (data : List (String × Json))
    (call : Except String (Option String)) (loads : String → Except String Json)
    (rng : Nat → Nat) (p : String × String × Int) (xs ys : List Json)
    (hp : suggestPreamble data = .ok p)
    (ht : tryBlock call loads = .ok (.arr xs))
    (hf : fixupRecipes rng 0 xs = .ok ys) :
    suggest data call loads rng
      = .ok { recipes := .arr ys, error := none, status := 200 }
    ∧ ys.length = xs.length ∧ 3 ≤ p.2.2 ∧ p.2.2 ≤ 6 := by
  refine ⟨?_, fixupRecipes_length rng 0 xs ys hf,
    (suggestPreamble_limit_bounds data p hp).1,
    (suggestPreamble_limit_bounds data p hp).2⟩
  unfold suggest
  rw [hp]
  simp only [ht, hf]

/-- C4 amended witness: a one-recipe batch under the default limit 5 comes
back whole. -/
theorem suggest_limit_clamped_no_truncation_witness :
    suggest [] (.ok (some "x"))
        (fun _ => .ok (.obj [("recipes", .arr [.obj [("id", .num 1),
          ("goal", .arr [])]])]))
        (fun _ => 100000)
      = .ok { recipes := .arr [.obj [("id", .num 1), ("goal", .arr [])]],
              error := none, status := 200 }
    ∧ ([Json.obj [("id", .num 1), ("goal", .arr [])]]).length
        = ([Json.obj [("id", .num 1), ("goal", .arr [])]]).length
    ∧ 3 ≤ (("", "", (5 : Int)) : String × String × Int).2.2
    ∧ (("", "", (5 : Int)) : String × String × Int).2.2 ≤ 6 :=
  suggest_limit_clamped_no_truncation [] (.ok (some "x"))
    (fun _ => .ok (.obj [("recipes", .arr [.obj [("id", .num 1),
      ("goal", .arr [])]])]))
    (fun _ => 100000) ("", "", 5)
    [.obj [("id", .num 1), ("goal", .arr [])]]
    [.obj [("id", .num 1), ("goal", .arr [])]]
    (by rfl) (by rfl) (by rfl)

/-- C6 counterexample: a malformed limit is fatal.  `int("abc")` raises an
uncaught `ValueError` before the `try` block, so the request fails (an HTTP
500) instead of defaulting. -/
theorem suggest_limit_malformed_cex :
    suggest [("limit", .str "abc")] (.ok (some "x")) (fun _ => .ok (.obj []))
        (fun _ => 0)
      = .error "ValueError: invalid literal for int()" := by
  rfl

/-- C6 (amended): an absent — or any falsy — `limit` value defaults to the
constant 5 (`int(data.get("limit") or 5)`), and the request is processed
exactly as if the client had sent `limit = 5`; a truthy value that `int()`
cannot convert instead raises an uncaught exception. -/
theorem suggest_limit_defaults_to_five (data : List (String × Json))
    (h : truthy (getJ data "limit") = false) :
    limitOf data = .ok 5
    ∧ ∀ (call : Except String (Option String)) (loads : String → Except String Json)
        (rng : Nat → Nat),
        suggest data call loads rng
          = suggest (dictSet data "limit" (.num 5)) call loads rng := by
  have h1 : limitOf data = .ok 5 := by
    unfold limitOf
    rw [if_neg (by simp [h])]
    rfl
  refine ⟨h1, fun call loads rng => ?_⟩
  apply suggest_congr
  have h2 : limitOf (dictSet data "limit" (.num 5)) = .ok 5 := by
    unfold limitOf
    rw [getJ, lookup_dictSet_self data "limit" (.num 5)]
    rfl
  unfold suggestPreamble
  rw [getJ_dictSet_ne data "limit" "meal_type" _ (by decide),
    getJ_dictSet_ne data "limit" "comments" _ (by decide), h1, h2]

/-- C6 witness: with no `limit` field the parsed limit is 5 and the whole
request behaves as if `limit = 5` had been sent. -/
theorem suggest_limit_defaults_to_five_witness :
    limitOf [] = .ok 5
    ∧ suggest [] (.error "x") (fun _ => .ok .null) (fun _ => 0)
        = suggest (dictSet [] "limit" (.num 5)) (.error "x") (fun _ => .ok .null)
            (fun _ => 0) :=
  ⟨(suggest_limit_defaults_to_five [] rfl).1,
   (suggest_limit_defaults_to_five [] rfl).2 (.error "x") (fun _ => .ok .null)
     (fun _ => 0)⟩

/-- C7 counterexample: the claim does not hold for every `/email` request
made without transport credentials — a request with no recipient returns the
400 `ok = false` "Missing recipient email" response, not the `ok = true`
dry-run success, because the recipient check precedes the credential
check. -/
theorem email_dry_run_cex :
    credTruthy none = false
    ∧ email_send [] none none none (.ok ())
        = .ok { resp := { ok := false, mode := none,
                          error := some "Missing recipient email",
                          preview := none, status := 400 }, sent := none } :=
  ⟨rfl, rfl⟩

/-- C7 (amended): for every `/email` request whose stripped recipient is
non-empty and whose plain-text and HTML bodies the handler can format
(lines 229–249 and 252–276 raise nothing), when `SMTP_USER` or `SMTP_PASS`
is absent (or empty — the code tests falsiness) the handler returns
`ok = true`, `mode = "dry_run"` with status 200 and performs no transmission
over the mail transport. -/
theorem email_dry_run (data : List (String × Json)) (u pw f : Option String)
    (smtp : Except String Unit) (t instr : String)
    (hto : strField (getJ data "to") = .ok t) (htne : t ≠ "")
    (hinstr : strField (getJ data "instructions") = .ok instr)
    (hbody : isOkE (buildTextBody (nameField data) (recipeField data) instr) = true)
    (hhtml : isOkE (buildHtmlBody (nameField data) (recipeField data) instr) = true)
    (hcred : credTruthy u = false ∨ credTruthy pw = false) :
    ∃ pv, email_send data u pw f smtp
      = .ok { resp := { ok := true, mode := some "dry_run", error := none,
                        preview := some pv, status := 200 }, sent := none } := by
  unfold email_send
  rw [hto]
  simp only [hinstr]
  rw [if_neg htne]
  cases hb : buildTextBody (nameField data) (recipeField data) instr with
  | error e => rw [hb] at hbody; cases hbody
  | ok body =>
    cases hh : buildHtmlBody (nameField data) (recipeField data) instr with
    | error e => rw [hh] at hhtml; cases hhtml
    | ok html =>
      refine ⟨preview400 body, ?_⟩
      simp only [hb, hh]
      rw [if_pos (by rcases hcred with h | h <;> simp [h])]

/-- C7 amended witness: a request to `a@b.c` with both credentials absent is
answered with the dry-run success and nothing is transmitted. -/
theorem email_dry_run_witness :
    ∃ pv, email_send [("to", .str "a@b.c")] none none none (.ok ())
      = .ok { resp := { ok := true, mode := some "dry_run", error := none,
                        preview := some pv, status := 200 }, sent := none } :=
  email_dry_run [("to", .str "a@b.c")] none none none (.ok ()) "a@b.c" ""
    (by rfl) (by decide) (by rfl) (by rfl) (by rfl) (Or.inl rfl)

/-- C9 counterexample: the claim does not hold for every `/email` request
with a missing recipient — when the `instructions` field is a truthy
non-string (here the number 3), the handler raises `AttributeError` on
`.strip()` before the recipient check ever runs, so the client gets an HTTP
500, not the 400 `ok = false` response. -/
theorem email_missing_recipient_cex :
    getJ [("instructions", .num 3)] "to" = Json.null
    ∧ email_send [("instructions", .num 3)] none none none (.ok ())
        = .error "AttributeError: strip" :=
  ⟨rfl, rfl⟩

/-- C9 (amended): for every `/email` request whose `to` field strips to the
empty string (absent, falsy, empty or whitespace-only) and whose
`instructions` field reads without raising (absent, falsy or a string), the
handler returns `ok = false` with error "Missing recipient email" and
status 400, without constructing the message body and without any send
attempt — the response is fully determined before `recipe` is touched. -/
theorem email_missing_recipient (data : List (String × Json))
    (u pw f : Option String) (smtp : Except String Unit) (instr : String)
    (hto : strField (getJ data "to") = .ok "")
    (hinstr : strField (getJ data "instructions") = .ok instr) :
    email_send data u pw f smtp
      = .ok { resp := { ok := false, mode := none,
                        error := some "Missing recipient email",
                        preview := none, status := 400 }, sent := none } := by
  unfold email_send
  rw [hto]
  simp only [hinstr, if_true]

/-- C9 witness: a whitespace-only recipient with both credentials present
and a working transport still yields the 400 missing-recipient response and
no send. -/
theorem email_missing_recipient_witness :
    email_send [("to", .str "   ")] (some "u") (some "p") none (.ok ())
      = .ok { resp := { ok := false, mode := none,
                        error := some "Missing recipient email",
                        preview := none, status := 400 }, sent := none } :=
  email_missing_recipient [("to", .str "   ")] (some "u") (some "p") none
    (.ok ()) "" (by rfl) (by rfl)
